import Mathlib

/-!
Verification development for the GRVT TypeScript client library.

This file shallowly embeds the transport-level core of the repository:

* the WebSocket message router (`src/transport/websocket/_eventTarget.ts`):
  classification of inbound JSON frames into pong / error / subscription
  response / data message,
* the WebSocket subscription manager
  (`src/transport/websocket/_subscriptionManager.ts`): the subscription
  index, correlation-id assignment, pending-request table, reconnection
  replay and close-time cleanup,
* the `WebSocketTransport` constructor (`src/transport/websocket/mod.ts`),
* the cookie-refresh path of the HTTP transport
  (`src/transport/http/mod.ts`).

JavaScript `Map`s are modelled as association lists in insertion order
(`Map` iteration order is insertion order), promises are modelled by
explicit request ids plus settlement transitions, and the single-threaded
event-loop semantics is modelled by making each inbound event handler one
state transition that includes the microtask continuations it triggers
(promise `.finally` / `.catch` callbacks run before the next event task is
processed).
-/

namespace Grvt

/-! ## JSON values

Model of the values produced by `JSON.parse` on an inbound text frame.
`JSON.parse` can never produce `undefined` or a function, so object fields
always hold a proper value.  Numbers are modelled as integers; none of the
embedded code computes with them, it only tests `typeof x === "number"`.
-/

inductive JVal where
  | jnull : JVal
  | jbool : Bool → JVal
  | jnum : Int → JVal
  | jstr : String → JVal
  | jarr : List JVal → JVal
  | jobj : List (String × JVal) → JVal

/-- Model of `typeof msg === "object" && msg !== null`: in JavaScript both
plain objects and arrays have `typeof` equal to `"object"`. -/
def JVal.isObjectLike : JVal → Bool
  | .jarr _ => true
  | .jobj _ => true
  | _ => false

/-- Model of the `in` operator for the field names this code probes
(`code`, `message`, `method`, `stream`, `feed`, `type`, `request_id`):
none of these is an intrinsic array property, so `k in arr` is false for
arrays. -/
def JVal.hasField : JVal → String → Bool
  | .jobj fields, k => fields.any (fun p => p.1 == k)
  | _, _ => false

/-- Field access `msg.k` (first binding wins, as in a parsed JSON object
where duplicate keys have already collapsed). -/
def JVal.getField : JVal → String → Option JVal
  | .jobj fields, k => (fields.find? (fun p => p.1 == k)).map (fun p => p.2)
  | _, _ => none

/-! ## Message router (`GrvtEventTarget`, `_eventTarget.ts`) -/

/-- Model of `msg === "pong" || (typeof msg === "object" && msg?.type === "pong")`:
strict equality with the string literal, or an object-like value whose
`type` field is the string `"pong"`. -/
def isPongMessage (m : JVal) : Bool :=
  (match m with
   | .jstr s => s == "pong"
   | _ => false) ||
  (m.isObjectLike &&
    (match m.getField "type" with
     | some (.jstr s) => s == "pong"
     | _ => false))

/-- Model of `isErrorMessage` (`_eventTarget.ts` lines 98-106): object with
a `code` field and a `message` field where `typeof code === "number"`.
Note the source does NOT check the type of `message`. -/
def isErrorMessage (m : JVal) : Bool :=
  m.isObjectLike && m.hasField "code" && m.hasField "message" &&
    (match m.getField "code" with
     | some (.jnum _) => true
     | _ => false)

/-- Model of `isSubscriptionResponse`: object with a `method` or `stream`
field, and not having a `feed` field holding a non-array value.  The
source's `typeof feed !== "undefined"` conjunct is always true when the
field is present in parsed JSON (JSON has no `undefined`), so it drops out. -/
def isSubscriptionResponse (m : JVal) : Bool :=
  m.isObjectLike && (m.hasField "method" || m.hasField "stream") &&
    !(m.hasField "feed" &&
      !(match m.getField "feed" with
        | some (.jarr _) => true
        | _ => false))

/-- Model of `isDataMessage`: object with `stream` and `feed` fields where
`typeof stream === "string"`. -/
def isDataMessage (m : JVal) : Bool :=
  m.isObjectLike && m.hasField "stream" && m.hasField "feed" &&
    (match m.getField "stream" with
     | some (.jstr _) => true
     | _ => false)

/-- Strip a leading `v1.`, if present, from a character list (model of
`stream.replace(/^v1\./, "")`: the anchored regex removes at most one
leading occurrence). -/
def stripV1Data : List Char → Option (List Char)
  | 'v' :: '1' :: '.' :: rest => some rest
  | _ => none

/-- Model of `msg.stream.replace(/^v1\./, "")`. -/
def stripV1 (w : String) : String :=
  match stripV1Data w.data with
  | some rest => String.mk rest
  | none => w

/-- Model of `stream.startsWith("v1.")`. -/
def startsWithV1 (s : String) : Bool :=
  (stripV1Data s.data).isSome

/-- Model of `WebSocketSubscriptionManager._normalizeStreamName`:
add the `v1.` prefix if not already present. -/
def normalizeStreamName (stream : String) : String :=
  if startsWithV1 stream then stream else "v1." ++ stream

/-- The event dispatched for one inbound frame.  Each constructor is one
`dispatchEvent` call in the `GrvtEventTarget` constructor; `dropped`
covers frames matching no branch (and, in the source, JSON parse errors,
which are swallowed by the surrounding `try`). -/
inductive RouterEvent where
  | pong : RouterEvent
  | errorEvt : JVal → RouterEvent
  | subscriptionResponse : JVal → RouterEvent
  | dataEvt : String → JVal → RouterEvent
  | dropped : RouterEvent

/-- Model of the message handler in the `GrvtEventTarget` constructor
(`_eventTarget.ts` lines 136-168): the four classification branches are
tried in source order and the first match dispatches and returns. -/
def routeMessage (m : JVal) : RouterEvent :=
  if isPongMessage m then .pong
  else if isErrorMessage m then .errorEvt m
  else if isSubscriptionResponse m && !isDataMessage m then .subscriptionResponse m
  else if isDataMessage m then
    let stream := match m.getField "stream" with
      | some (.jstr s) => s
      | _ => ""
    .dataEvt (stripV1 stream) m
  else .dropped

/-- Error shape as the specification words it ("object containing numeric
`code` and string `message` fields").  This definition follows the spec's
words, for comparison with `isErrorMessage`, which is translated from the
source. -/
def errorShapePerSpec (m : JVal) : Bool :=
  m.isObjectLike &&
    (match m.getField "code" with
     | some (.jnum _) => true
     | _ => false) &&
    (match m.getField "message" with
     | some (.jstr _) => true
     | _ => false)

/-! ## Composite subscription key -/

/-- Model of the template literal in `subscribe`
(`_subscriptionManager.ts` line 225): the composite key is
the stream and feed joined by a colon. -/
def compositeKey (stream feed : String) : String :=
  stream ++ ":" ++ feed

/-! ## Subscription manager (`WebSocketSubscriptionManager`)

State model of `_subscriptionManager.ts`.  Listener callbacks are
identified by `Nat` tokens (JavaScript compares them by reference).  A
`SubscriptionState`'s `promise` field is modelled by the correlation id of
the `_sendSubscribe` call it chains on (`reqId`), together with the
`promiseFinished` flag the source keeps next to it; the
`failureController` is modelled by the `failed` flag, and `replayed`
records whether the current promise was produced by `_handleOpen` (only
those promises carry the `.catch` that aborts the failure controller). -/

structure SubEntry where
  stream : String
  feed : String
  /-- The `listeners` map: listener token to the stream name captured by
  its unsubscribe closure (registration order preserved). -/
  listeners : List (Nat × String)
  reqId : Nat
  promiseFinished : Bool
  failed : Bool
  replayed : Bool
deriving DecidableEq, Repr

/-- One outbound JSON frame built in `_sendSubscribe` / `_sendUnsubscribe`.
`is_full` is present (`some true`) only on subscribe frames. -/
structure Frame where
  request_id : Nat
  stream : String
  feed : List String
  method : String
  is_full : Option Bool
deriving DecidableEq, Repr

structure MgrState where
  resubscribe : Bool
  /-- `_requestId`, the correlation-id counter. -/
  requestId : Nat
  /-- Keys of `_pendingRequests`, in insertion order. -/
  pending : List Nat
  /-- `_subscriptions`: composite key to subscription state, insertion order. -/
  subs : List (String × SubEntry)
  /-- `addEventListener` registrations made by `subscribe`: one
  `(event name, composite key, listener)` triple per listener wrapper. -/
  eventListeners : List (String × String × Nat)
  /-- Outbound frames, in the order they are committed for sending
  (a frame built while the socket is still connecting is sent verbatim by
  the one-shot open listener, so it is logged at build time). -/
  sent : List Frame
  /-- The `setTimeout` durations scheduled in `_sendSubscribe`,
  by correlation id. -/
  scheduledTimeouts : List (Nat × Nat)
deriving DecidableEq, Repr

/-- The manager as constructed (`_subscriptionManager.ts` lines 171-208). -/
def initMgr (resubscribe : Bool) : MgrState :=
  { resubscribe := resubscribe
    requestId := 0
    pending := []
    subs := []
    eventListeners := []
    sent := []
    scheduledTimeouts := [] }

/-- Lookup in the `_subscriptions` map. -/
def alookup (k : String) : List (String × SubEntry) → Option SubEntry
  | [] => none
  | p :: ps => if p.1 = k then some p.2 else alookup k ps

/-- Update the entry stored under a key, leaving everything else in place
(`Map` mutation of the object stored under `k`). -/
def updateEntry (st : MgrState) (k : String) (f : SubEntry → SubEntry) : MgrState :=
  { st with subs := st.subs.map (fun p => if p.1 = k then (p.1, f p.2) else p) }

/-- Membership test on a `listeners` map (`subscription.listeners.get(listener)`). -/
def listenersHas (e : SubEntry) (l : Nat) : Bool :=
  e.listeners.any (fun p => p.1 == l)

/-- The fixed subscribe-request timeout scheduled in `_sendSubscribe`
(`setTimeout(..., 10_000)`). -/
def subscribeTimeoutMs : Nat := 10000

/-- The frame built in `_sendSubscribe` (lines 308-314): correlation id,
normalized stream, feed wrapped in a one-element array, method
`"subscribe"`, `is_full: true`. -/
def mkSubscribeFrame (rid : Nat) (stream feed : String) : Frame :=
  { request_id := rid
    stream := normalizeStreamName stream
    feed := [feed]
    method := "subscribe"
    is_full := some true }

/-- Model of `_sendSubscribe` (lines 301-335): bump the correlation-id
counter, register the pending request under the fresh id, commit the
frame, and schedule the fixed 10-second timeout.  Returns the fresh id. -/
def sendSubscribe (st : MgrState) (stream feed : String) : MgrState × Nat :=
  let rid := st.requestId + 1
  ({ st with
      requestId := rid
      pending := st.pending ++ [rid]
      sent := st.sent ++ [mkSubscribeFrame rid stream feed]
      scheduledTimeouts := st.scheduledTimeouts ++ [(rid, subscribeTimeoutMs)] },
   rid)

/-- Model of the synchronous part of `subscribe` (lines 219-279): create
the entry and send the subscribe frame if the composite key is new, then
register the listener (deduplicated per listener reference).  Returns the
correlation id of the promise the call then awaits. -/
def subscribeStep (st : MgrState) (stream feed : String) (l : Nat) : MgrState × Nat :=
  let key := compositeKey stream feed
  let found := alookup key st.subs
  let stEntryRid : MgrState × SubEntry × Nat :=
    match found with
    | none =>
        let sr := sendSubscribe st stream feed
        let e : SubEntry :=
          { stream := stream, feed := feed, listeners := []
            reqId := sr.2, promiseFinished := false
            failed := false, replayed := false }
        ({ sr.1 with subs := sr.1.subs ++ [(key, e)] }, e, sr.2)
    | some e => (st, e, e.reqId)
  let st1 := stEntryRid.1
  let e := stEntryRid.2.1
  let rid := stEntryRid.2.2
  let st2 :=
    if listenersHas e l then st1
    else
      let stU := updateEntry st1 key (fun e2 => { e2 with listeners := e2.listeners ++ [(l, stream)] })
      { stU with eventListeners := stU.eventListeners ++ [(stream, key, l)] }
  (st2, rid)

/-- The settlement continuations of the promise with correlation id `rid`:
the `.finally` attached in `subscribe`/`_handleOpen` flips
`promiseFinished`, and on rejection the `.catch` attached in `_handleOpen`
aborts the failure controller of a replayed entry. -/
def settleEntries (st : MgrState) (rid : Nat) (isReject : Bool) : MgrState :=
  { st with subs := st.subs.map (fun p =>
      if p.2.reqId = rid then
        (p.1, { p.2 with
                  promiseFinished := true
                  failed := p.2.failed || (isReject && p.2.replayed) })
      else p) }

/-- Model of the `subscriptionResponse` handler (lines 181-190): if a
pending request exists under the frame's correlation id, resolve it and
delete it; the promise's continuations then run. -/
def handleResponse (st : MgrState) (rid : Nat) : MgrState :=
  if rid ∈ st.pending then
    settleEntries { st with pending := st.pending.filter (fun i => i != rid) } rid false
  else st

/-- Model of the `error` handler (lines 193-202): like `handleResponse`
but the pending request is rejected. -/
def handleError (st : MgrState) (rid : Nat) : MgrState :=
  if rid ∈ st.pending then
    settleEntries { st with pending := st.pending.filter (fun i => i != rid) } rid true
  else st

/-- Model of the `setTimeout` callback in `_sendSubscribe` (lines 328-333):
if the request is still pending when the timer fires, delete it and reject.
Observable effect identical to a server error frame for that id. -/
def fireTimeout (st : MgrState) (rid : Nat) : MgrState :=
  if rid ∈ st.pending then
    settleEntries { st with pending := st.pending.filter (fun i => i != rid) } rid true
  else st

/-- Does an event-listener registration belong to a listener stored in the
current subscription index?  Used by close-time cleanup: the stored
unsubscribe closures remove exactly the wrappers they registered. -/
def registrationOwned (st : MgrState) (r : String × String × Nat) : Bool :=
  match alookup r.2.1 st.subs with
  | some e => e.listeners.any (fun p => p.1 == r.2.2 && p.2 == r.1)
  | none => false

/-- The cleanup loop of `_handleClose` when `resubscribe` is disabled
(lines 381-391): every stored unsubscribe closure runs (removing its
event-listener wrapper; the socket is no longer open so no unsubscribe
frame is sent) and the subscription index is cleared. -/
def cleanupAll (st : MgrState) : MgrState :=
  { st with
      eventListeners := st.eventListeners.filter (fun r => !registrationOwned st r)
      subs := [] }

/-- Model of `_handleClose` (lines 380-398) together with the promise
continuations it triggers: optionally clean up all subscriptions, then
reject every outstanding pending request and clear the pending index.
Each rejected promise's `.finally`/`.catch` continuation runs on the
microtask queue, i.e. before any later socket event is processed, so its
effect is part of this transition. -/
def handleClose (st : MgrState) : MgrState :=
  let st1 := if st.resubscribe then st else cleanupAll st
  { st1 with
      pending := []
      subs := st1.subs.map (fun p =>
        if p.2.reqId ∈ st.pending then
          (p.1, { p.2 with
                    promiseFinished := true
                    failed := p.2.failed || p.2.replayed })
        else p) }

/-- The body of the `_handleOpen` loop for one entry (lines 362-373): if
the entry's promise has settled, re-send the subscribe frame, swap in the
new promise (with its failure-signal `.catch`) and mark it unsettled. -/
def replayEntry (st : MgrState) (key : String) : MgrState :=
  match alookup key st.subs with
  | some e =>
      if e.promiseFinished then
        let sr := sendSubscribe st e.stream e.feed
        updateEntry sr.1 key (fun e2 =>
          { e2 with reqId := sr.2, promiseFinished := false, replayed := true })
      else st
  | none => st

/-- Model of `_handleOpen` (lines 360-375): when `resubscribe` is enabled,
walk the subscription index in order and replay every settled entry. -/
def handleOpen (st : MgrState) : MgrState :=
  if st.resubscribe then (st.subs.map Prod.fst).foldl replayEntry st else st

/-- Listeners invoked when a data frame carrying stream name `wireStream`
arrives: the router dispatches it under the prefix-stripped name
(`_eventTarget.ts` lines 159-163) and the event target invokes exactly the
wrappers registered under that event name. -/
def invokedListeners (st : MgrState) (wireStream : String) : List Nat :=
  (st.eventListeners.filter (fun r => r.1 == stripV1 wireStream)).map
    (fun r => r.2.2)

/-- A rejection reason for a subscribe request (`WebSocketRequestError`). -/
inductive WsError where
  | requestError : String → WsError
deriving DecidableEq, Repr

/-- What `subscribe` returns to its caller. -/
inductive SubscribeResult where
  /-- The `ISubscription` handle: unsubscribe closure for `(key, listener)`
  plus the entry's failure signal. -/
  | handle : String → Nat → SubscribeResult
  | failedCall : WsError → SubscribeResult
deriving DecidableEq, Repr

/-- Model of the tail of `subscribe` (lines 281-289): `await
subscription.promise` rethrows a rejection, otherwise the control object
is returned. -/
def subscribeReturn (awaited : Except WsError Unit) (key : String) (l : Nat) :
    SubscribeResult :=
  match awaited with
  | .ok _ => .handle key l
  | .error e => .failedCall e

/-! ## WebSocket transport construction (`src/transport/websocket/mod.ts`) -/

inductive GrvtEnv where
  | prod | testnet | stg | dev
deriving DecidableEq, Repr

inductive GrvtEndpointType where
  | edge | marketData | tradeData
deriving DecidableEq, Repr

/-- `WebSocketTransportOptions` (`mod.ts` lines 46-84).  URL resolution is
not modelled (it only picks the socket address). -/
structure WebSocketTransportOptions where
  env : Option GrvtEnv
  endpointType : Option GrvtEndpointType
  url : Option String
  apiKey : Option String
  cookie : Option String
  timeout : Option Nat
  resubscribe : Option Bool
  debug : Option Bool
deriving DecidableEq, Repr

/-- The fields of a constructed `WebSocketTransport` relevant to
subscriptions: the stored option values and the subscription manager. -/
structure WebSocketTransport where
  env : GrvtEnv
  endpointType : GrvtEndpointType
  isTestnet : Bool
  timeout : Nat
  debug : Bool
  cookie : Option String
  mgr : MgrState
deriving DecidableEq, Repr

/-- Model of the `WebSocketTransport` constructor (lines 161-198): the
defaults are applied to each option, and the subscription manager is
created from the socket, the event target and `options?.resubscribe ??
true` only — the `timeout` field is stored on the transport but never
handed to the manager. -/
def mkWebSocketTransport (o : WebSocketTransportOptions) : WebSocketTransport :=
  { env := o.env.getD .testnet
    endpointType := o.endpointType.getD .marketData
    isTestnet := decide (o.env.getD .testnet ≠ .prod)
    timeout := o.timeout.getD 10000
    debug := o.debug.getD false
    cookie := o.cookie
    mgr := initMgr (o.resubscribe.getD true) }

/-- Model of `WebSocketTransport.subscribe` (lines 234-241): delegate to
the subscription manager. -/
def WebSocketTransport.subscribeCall (t : WebSocketTransport)
    (stream feed : String) (l : Nat) : WebSocketTransport × Nat :=
  let r := subscribeStep t.mgr stream feed l
  ({ t with mgr := r.1 }, r.2)

/-! ## HTTP auth session (`src/transport/http/mod.ts`)

Model of the authentication-refresh path of `HttpTransport.request`.  The
two network operations it can perform are modelled as oracle inputs: the
outcome of the login `fetch` inside `_getCookie` (the parsed cookie, or
`none` for any of its failure paths) and the primary `fetch`. -/

structure GrvtCookie where
  gravity : String
  /-- Expiration timestamp in milliseconds. -/
  expires : Int
deriving DecidableEq, Repr

/-- Errors thrown along the modelled path.  `plainError` is a bare
JavaScript `Error` (not a `TransportError` subclass); `httpRequestError`
is `HttpRequestError`, which extends `TransportError`. -/
inductive HttpError where
  | plainError : String → HttpError
  | httpRequestError : Option String → Option HttpError → HttpError

/-- Whether the thrown value is an instance of `TransportError`
(`error instanceof TransportError` in `request`'s catch block). -/
def HttpError.isTransportError : HttpError → Bool
  | .plainError _ => false
  | .httpRequestError _ _ => true

/-- `_cookieRefreshBuffer` (5 seconds). -/
def cookieRefreshBuffer : Int := 5000

/-- Model of `_shouldRefreshCookie` (lines 223-234): throw if no API key
is configured (the check `!this.apiKey` is also true for the empty
string), refresh if no cookie is held or its expiry is within the buffer. -/
def shouldRefreshCookie (apiKey : Option String) (cookie : Option GrvtCookie)
    (now : Int) : Except HttpError Bool :=
  if apiKey.getD "" = "" then
    .error (.plainError "Attempting to use authenticated API without API key set")
  else
    match cookie with
    | none => .ok true
    | some c => .ok (c.expires - now ≤ cookieRefreshBuffer)

/-- A network round-trip performed by `request`: the login POST inside
`_getCookie`, or the primary `fetch`. -/
inductive NetCall where
  | login | mainFetch
deriving DecidableEq, Repr

/-- Model of `_refreshCookie` (lines 239-253): no-op when the check says
the cookie is fresh; otherwise perform the login round-trip (`_getCookie`)
and either install the new cookie or throw `HttpRequestError` with body
`"Failed to obtain authentication cookie"`.  Returns the held cookie after
the call and the network calls made. -/
def refreshCookie (apiKey : Option String) (cookie : Option GrvtCookie)
    (now : Int) (loginResult : Option GrvtCookie) :
    Except HttpError (Option GrvtCookie) × List NetCall :=
  match shouldRefreshCookie apiKey cookie now with
  | .error e => (.error e, [])
  | .ok false => (.ok cookie, [])
  | .ok true =>
      match loginResult with
      | some c => (.ok (some c), [.login])
      | none => (.error (.httpRequestError (some "Failed to obtain authentication cookie") none), [.login])

/-- Model of `request` (lines 159-218) up to and including its error
wrapping, for an authenticated or unauthenticated call: the `try` block
first runs `_refreshCookie` when `requiresAuth` is set, then performs the
primary fetch; the `catch` block rethrows `TransportError`s unchanged and
wraps anything else in `HttpRequestError` with the original error as
`cause`.  The primary fetch itself is abstracted to the single `mainFetch`
network call (its response handling does not interact with the cookie
state).  Returns the request outcome, the cookie held afterwards, and the
network calls made, in order. -/
def requestAuthPath (apiKey : Option String) (cookie : Option GrvtCookie)
    (now : Int) (loginResult : Option GrvtCookie) (requiresAuth : Bool) :
    Except HttpError Unit × Option GrvtCookie × List NetCall :=
  let refreshed : Except HttpError (Option GrvtCookie) × List NetCall :=
    if requiresAuth then refreshCookie apiKey cookie now loginResult
    else (.ok cookie, [])
  match refreshed with
  | (.error e, calls) =>
      (.error (if e.isTransportError then e else .httpRequestError none (some e)),
       cookie, calls)
  | (.ok c, calls) => (.ok (), c, calls ++ [.mainFetch])

/-- A sequence of authenticated `request` calls at the given clock
readings, threading the held cookie; the login oracle is held fixed
(each successful login installs `loginResult`). -/
def runAuthCalls (apiKey : Option String) (cookie : Option GrvtCookie)
    (loginResult : Option GrvtCookie) : List Int → Option GrvtCookie × List NetCall
  | [] => (cookie, [])
  | t :: ts =>
      let r := requestAuthPath apiKey cookie t loginResult true
      let rest := runAuthCalls apiKey r.2.1 loginResult ts
      (rest.1, r.2.2 ++ rest.2)

/-- Number of login round-trips in a network-call log. -/
def countLogins (calls : List NetCall) : Nat :=
  (calls.filter (fun c => c == .login)).length

/-! ## Derived notions used by the statements -/

/-- Correlation-id bookkeeping invariant of a manager state: pending ids
are pairwise distinct and every id handed out so far (pending or already
sent in a frame) is bounded by the counter. -/
def idInv (st : MgrState) : Prop :=
  st.pending.Nodup
  ∧ (∀ i ∈ st.pending, i ≤ st.requestId)
  ∧ (∀ fr ∈ st.sent, fr.request_id ≤ st.requestId)

/-- An inbound frame addressed to the pending-request table. -/
inductive WireEvent where
  | response : Nat → WireEvent
  | errorFrame : Nat → WireEvent
deriving DecidableEq, Repr

def wireEventRid : WireEvent → Nat
  | .response r => r
  | .errorFrame r => r

/-- Process a sequence of response/error frames in arrival order. -/
def processEvents (st : MgrState) : List WireEvent → MgrState
  | [] => st
  | e :: es =>
      processEvents
        (match e with
         | .response r => handleResponse st r
         | .errorFrame r => handleError st r) es

/-- Bookkeeping left behind by a `subscribe(stream, feed, l)` call: the
entry is still indexed with the listener in its listeners map, the
listener's wrapper is still registered on the event target, and any data
frame dispatched under the listener's event name still invokes it. -/
def bookkeepingIntact (st : MgrState) (stream feed : String) (l : Nat) : Prop :=
  (∃ e, alookup (compositeKey stream feed) st.subs = some e ∧ (l, stream) ∈ e.listeners)
  ∧ (stream, compositeKey stream feed, l) ∈ st.eventListeners
  ∧ ∀ w, stripV1 w = stream → l ∈ invokedListeners st w

/-! ## Helper lemmas -/

theorem data_v1_append (t : String) :
    ("v1." ++ t).data = 'v' :: '1' :: '.' :: t.data := by
  rw [String.data_append]; rfl

theorem startsWithV1_v1_append (t : String) : startsWithV1 ("v1." ++ t) = true := by
  simp [startsWithV1, data_v1_append, stripV1Data]

theorem stripV1_v1_append (t : String) : stripV1 ("v1." ++ t) = t := by
  simp [stripV1, data_v1_append, stripV1Data]

theorem v1_append_ne (t : String) : "v1." ++ t ≠ t := by
  intro h
  have h2 := congrArg String.data h
  rw [data_v1_append] at h2
  have h3 := congrArg List.length h2
  simp at h3
  omega

theorem normalizeStreamName_idem (s : String) :
    normalizeStreamName (normalizeStreamName s) = normalizeStreamName s := by
  unfold normalizeStreamName
  by_cases h : startsWithV1 s
  · simp [h]
  · simp [h, startsWithV1_v1_append]

theorem data_compositeKey (s f : String) :
    (compositeKey s f).data = s.data ++ ':' :: f.data := by
  unfold compositeKey
  rw [String.data_append, String.data_append]
  simp

theorem sep_split_unique {c : Char} :
    ∀ (l1 l2 r1 r2 : List Char), c ∉ l1 → c ∉ l2 →
      l1 ++ c :: r1 = l2 ++ c :: r2 → l1 = l2 ∧ r1 = r2 := by
  intro l1
  induction l1 with
  | nil =>
      intro l2 r1 r2 _ h2 h
      cases l2 with
      | nil => simpa using h
      | cons b bs =>
          simp at h
          exact absurd (h.1 ▸ List.mem_cons_self b bs) h2
  | cons a as ih =>
      intro l2 r1 r2 h1 h2 h
      cases l2 with
      | nil =>
          simp at h
          exact absurd (h.1 ▸ List.mem_cons_self a as) h1
      | cons b bs =>
          simp at h
          obtain ⟨hab, htail⟩ := h
          have h1' : c ∉ as := fun hc => h1 (List.mem_cons_of_mem a hc)
          have h2' : c ∉ bs := fun hc => h2 (List.mem_cons_of_mem b hc)
          obtain ⟨he, hr⟩ := ih bs r1 r2 h1' h2' htail
          exact ⟨by rw [hab, he], hr⟩

theorem alookup_none_iff (k : String) :
    ∀ xs, alookup k xs = none ↔ ∀ p ∈ xs, p.1 ≠ k := by
  intro xs
  induction xs with
  | nil => simp [alookup]
  | cons p ps ih =>
      unfold alookup
      by_cases h : p.1 = k
      · simp [h]
      · simp [h, ih]

theorem alookup_cons (k : String) (p : String × SubEntry) (ps : List (String × SubEntry)) :
    alookup k (p :: ps) = if p.1 = k then some p.2 else alookup k ps := rfl

theorem alookup_append_of_none (k : String) {xs : List (String × SubEntry)}
    (ys : List (String × SubEntry)) (h : alookup k xs = none) :
    alookup k (xs ++ ys) = alookup k ys := by
  induction xs with
  | nil => simp
  | cons p ps ih =>
      rw [alookup_cons] at h
      rw [List.cons_append, alookup_cons]
      by_cases hp : p.1 = k
      · simp [hp] at h
      · simp only [hp, if_false] at h ⊢
        exact ih h

theorem alookup_map_keyfix (k : String) (g : String × SubEntry → String × SubEntry)
    (hg : ∀ p, (g p).1 = p.1) :
    ∀ xs, alookup k xs = none → alookup k (xs.map g) = none := by
  intro xs
  induction xs with
  | nil => simp [alookup]
  | cons p ps ih =>
      intro h
      rw [alookup_cons] at h
      rw [List.map_cons, alookup_cons, hg p]
      by_cases hp : p.1 = k
      · simp [hp] at h
      · simp only [hp, if_false] at h ⊢
        exact ih h

theorem map_update_id (k : String) (g : String × SubEntry → String × SubEntry)
    {xs : List (String × SubEntry)} (h : ∀ p ∈ xs, p.1 ≠ k) :
    xs.map (fun p => if p.1 = k then g p else p) = xs := by
  induction xs with
  | nil => rfl
  | cons p ps ih =>
      simp only [List.map_cons]
      rw [if_neg (h p (List.mem_cons_self p ps))]
      rw [ih (fun q hq => h q (List.mem_cons_of_mem p hq))]

theorem alookup_map_append_single (k : String)
    (g : String × SubEntry → String × SubEntry) (hg : ∀ p, (g p).1 = p.1)
    {xs : List (String × SubEntry)} (h : alookup k xs = none) (e : SubEntry) :
    alookup k ((xs ++ [(k, e)]).map g) = some (g (k, e)).2 := by
  rw [List.map_append]
  rw [alookup_append_of_none _ _ (alookup_map_keyfix k g hg xs h)]
  simp [alookup_cons, hg]

/-- Computation of `subscribe` when the composite key is new: one frame is
sent under the fresh correlation id, one entry is appended to the index
holding exactly this listener, and one wrapper is registered. -/
theorem subscribeStep_fresh (st : MgrState) (stream feed : String) (l : Nat)
    (hkey : alookup (compositeKey stream feed) st.subs = none) :
    subscribeStep st stream feed l =
      ({ st with
          requestId := st.requestId + 1
          pending := st.pending ++ [st.requestId + 1]
          sent := st.sent ++ [mkSubscribeFrame (st.requestId + 1) stream feed]
          scheduledTimeouts := st.scheduledTimeouts ++ [(st.requestId + 1, subscribeTimeoutMs)]
          subs := st.subs ++ [(compositeKey stream feed,
            { stream := stream, feed := feed, listeners := [(l, stream)]
              reqId := st.requestId + 1, promiseFinished := false
              failed := false, replayed := false })]
          eventListeners := st.eventListeners ++ [(stream, compositeKey stream feed, l)] },
       st.requestId + 1) := by
  have hne : ∀ p ∈ st.subs, p.1 ≠ compositeKey stream feed :=
    (alookup_none_iff _ _).mp hkey
  simp only [subscribeStep, hkey, sendSubscribe, listenersHas, List.any_nil,
    Bool.false_eq_true, if_false, updateEntry, List.map_append,
    List.map_cons, List.map_nil]
  rw [map_update_id _ _ hne]
  simp

/-- Computation of `subscribe` when the entry exists and already holds the
listener: the state is unchanged and the call awaits the entry's current
request. -/
theorem subscribeStep_existing (st : MgrState) (stream feed : String) (l : Nat)
    (e : SubEntry) (hkey : alookup (compositeKey stream feed) st.subs = some e)
    (hl : listenersHas e l = true) :
    subscribeStep st stream feed l = (st, e.reqId) := by
  simp [subscribeStep, hkey, hl]

/-- Computation of `subscribe` when the entry exists but the listener is
new: only the listener registration changes. -/
theorem subscribeStep_existing_new (st : MgrState) (stream feed : String) (l : Nat)
    (e : SubEntry) (hkey : alookup (compositeKey stream feed) st.subs = some e)
    (hl : listenersHas e l = false) :
    subscribeStep st stream feed l =
      ({ st with
          subs := st.subs.map (fun p =>
            if p.1 = compositeKey stream feed then
              (p.1, { p.2 with listeners := p.2.listeners ++ [(l, stream)] })
            else p)
          eventListeners := st.eventListeners ++ [(stream, compositeKey stream feed, l)] },
       e.reqId) := by
  simp [subscribeStep, hkey, hl, updateEntry]

theorem pending_handleResponse (st : MgrState) (r q : Nat) :
    q ∈ (handleResponse st r).pending ↔ q ∈ st.pending ∧ q ≠ r := by
  unfold handleResponse
  by_cases h : r ∈ st.pending
  · simp [h, settleEntries, List.mem_filter]
  · simp only [h, if_false]
    constructor
    · intro hq
      exact ⟨hq, fun he => h (he ▸ hq)⟩
    · exact fun hq => hq.1

theorem pending_handleError (st : MgrState) (r q : Nat) :
    q ∈ (handleError st r).pending ↔ q ∈ st.pending ∧ q ≠ r := by
  unfold handleError
  by_cases h : r ∈ st.pending
  · simp [h, settleEntries, List.mem_filter]
  · simp only [h, if_false]
    constructor
    · intro hq
      exact ⟨hq, fun he => h (he ▸ hq)⟩
    · exact fun hq => hq.1

theorem pending_processEvents :
    ∀ (es : List WireEvent) (st : MgrState) (q : Nat),
      q ∈ (processEvents st es).pending ↔
        q ∈ st.pending ∧ q ∉ es.map wireEventRid := by
  intro es
  induction es with
  | nil =>
      intro st q
      simp [processEvents]
  | cons e es ih =>
      intro st q
      cases e with
      | response r =>
          simp only [processEvents]
          rw [ih, pending_handleResponse]
          simp only [wireEventRid, List.map_cons, List.mem_cons, not_or]
          tauto
      | errorFrame r =>
          simp only [processEvents]
          rw [ih, pending_handleError]
          simp only [wireEventRid, List.map_cons, List.mem_cons, not_or]
          tauto

theorem mem_invokedListeners {st : MgrState} {w stream k : String} {l : Nat}
    (h : (stream, k, l) ∈ st.eventListeners) (hw : stripV1 w = stream) :
    l ∈ invokedListeners st w := by
  unfold invokedListeners
  exact List.mem_map.mpr ⟨(stream, k, l), List.mem_filter.mpr ⟨h, by simp [hw]⟩, rfl⟩

theorem idInv_initMgr (b : Bool) : idInv (initMgr b) := by
  simp [idInv, initMgr]

theorem idInv_sendSubscribe {st : MgrState} (h : idInv st) (stream feed : String) :
    idInv (sendSubscribe st stream feed).1 := by
  obtain ⟨hnd, hp, hs⟩ := h
  refine ⟨?_, ?_, ?_⟩
  · simp only [sendSubscribe, List.nodup_append, List.nodup_cons,
      List.not_mem_nil, not_false_iff, List.nodup_nil, and_true, true_and]
    refine ⟨hnd, ?_⟩
    intro a ha hb
    have h1 := hp a ha
    simp at hb
    omega
  · intro i hi
    simp only [sendSubscribe, List.mem_append, List.mem_singleton] at hi
    cases hi with
    | inl hmem => exact le_trans (hp i hmem) (Nat.le_succ _)
    | inr heq => simp [sendSubscribe, heq]
  · intro fr hfr
    simp only [sendSubscribe, List.mem_append, List.mem_singleton] at hfr
    cases hfr with
    | inl hmem => exact le_trans (hs fr hmem) (Nat.le_succ _)
    | inr heq => simp [sendSubscribe, heq, mkSubscribeFrame]

theorem idInv_updateEntry {st : MgrState} (h : idInv st) (k : String)
    (f : SubEntry → SubEntry) : idInv (updateEntry st k f) := h

theorem idInv_subscribeStep {st : MgrState} (h : idInv st)
    (stream feed : String) (l : Nat) : idInv (subscribeStep st stream feed l).1 := by
  cases hkey : alookup (compositeKey stream feed) st.subs with
  | none =>
      rw [subscribeStep_fresh st stream feed l hkey]
      have h2 := idInv_sendSubscribe h stream feed
      simp only [sendSubscribe] at h2
      exact h2
  | some e =>
      cases hl : listenersHas e l with
      | true => rw [subscribeStep_existing st stream feed l e hkey hl]; exact h
      | false => rw [subscribeStep_existing_new st stream feed l e hkey hl]; exact h

theorem idInv_settleEntries {st : MgrState} (h : idInv st) (rid : Nat)
    (isReject : Bool) : idInv (settleEntries st rid isReject) := h

theorem idInv_handleResponse {st : MgrState} (h : idInv st) (rid : Nat) :
    idInv (handleResponse st rid) := by
  unfold handleResponse
  by_cases hr : rid ∈ st.pending
  · simp only [hr, if_true, settleEntries]
    obtain ⟨hnd, hp, hs⟩ := h
    exact ⟨hnd.filter _, fun i hi => hp i (List.mem_of_mem_filter hi), hs⟩
  · simp only [hr, if_false]
    exact h

theorem idInv_handleError {st : MgrState} (h : idInv st) (rid : Nat) :
    idInv (handleError st rid) := by
  unfold handleError
  by_cases hr : rid ∈ st.pending
  · simp only [hr, if_true, settleEntries]
    obtain ⟨hnd, hp, hs⟩ := h
    exact ⟨hnd.filter _, fun i hi => hp i (List.mem_of_mem_filter hi), hs⟩
  · simp only [hr, if_false]
    exact h

theorem idInv_handleClose {st : MgrState} (h : idInv st) :
    idInv (handleClose st) := by
  obtain ⟨_, _, hs⟩ := h
  unfold handleClose cleanupAll
  by_cases hr : st.resubscribe <;>
    simp only [hr, if_true, if_false] <;>
    exact ⟨List.nodup_nil, by simp, hs⟩

theorem idInv_replayEntry {st : MgrState} (h : idInv st) (k : String) :
    idInv (replayEntry st k) := by
  unfold replayEntry
  cases halookup : alookup k st.subs with
  | none => exact h
  | some e =>
      by_cases hf : e.promiseFinished = true
      · simp only [hf, if_true]
        exact idInv_updateEntry (idInv_sendSubscribe h e.stream e.feed) _ _
      · simp only [hf, if_false]
        exact h

theorem idInv_foldl_replay (ks : List String) :
    ∀ {st : MgrState}, idInv st → idInv (ks.foldl replayEntry st) := by
  induction ks with
  | nil => exact fun h => h
  | cons k ks ih => exact fun h => ih (idInv_replayEntry h k)

theorem idInv_handleOpen {st : MgrState} (h : idInv st) :
    idInv (handleOpen st) := by
  unfold handleOpen
  by_cases hr : st.resubscribe
  · simp only [hr, if_true]
    exact idInv_foldl_replay _ h
  · simp only [hr, if_false]
    exact h

theorem shouldRefreshCookie_some (k : String) (hk : ¬ k = "") (c : GrvtCookie)
    (t : Int) :
    shouldRefreshCookie (some k) (some c) t
      = .ok (decide (c.expires - t ≤ cookieRefreshBuffer)) := by
  simp only [shouldRefreshCookie, Option.getD]
  rw [if_neg hk]

theorem requestAuthPath_fresh (k : String) (hk : ¬ k = "") (c : GrvtCookie)
    (t : Int) (lr : Option GrvtCookie) (hfresh : c.expires - t > 5000) :
    requestAuthPath (some k) (some c) t lr true = (.ok (), some c, [.mainFetch]) := by
  have hd : decide (c.expires - t ≤ cookieRefreshBuffer) = false := by
    rw [decide_eq_false_iff_not]
    simp only [cookieRefreshBuffer]
    omega
  simp only [requestAuthPath, refreshCookie, shouldRefreshCookie_some k hk, hd,
    if_true, List.nil_append]

theorem requestAuthPath_login_none (k : String) (hk : ¬ k = "") (t : Int)
    (c : GrvtCookie) :
    requestAuthPath (some k) none t (some c) true
      = (.ok (), some c, [.login, .mainFetch]) := by
  have hs : shouldRefreshCookie (some k) none t = .ok true := by
    simp only [shouldRefreshCookie, Option.getD]
    rw [if_neg hk]
  simp only [requestAuthPath, refreshCookie, hs]
  rfl

theorem requestAuthPath_login_stale (k : String) (hk : ¬ k = "") (c : GrvtCookie)
    (t : Int) (c2 : GrvtCookie) (hstale : c.expires - t ≤ 5000) :
    requestAuthPath (some k) (some c) t (some c2) true
      = (.ok (), some c2, [.login, .mainFetch]) := by
  have hd : decide (c.expires - t ≤ cookieRefreshBuffer) = true := by
    rw [decide_eq_true_eq]
    simp only [cookieRefreshBuffer]
    omega
  simp only [requestAuthPath, refreshCookie, shouldRefreshCookie_some k hk, hd]
  rfl

theorem runAuthCalls_fresh_cookie (k : String) (hk : ¬ k = "") (c : GrvtCookie)
    (lr : Option GrvtCookie) :
    ∀ ts : List Int, (∀ t ∈ ts, c.expires - t > 5000) →
      runAuthCalls (some k) (some c) lr ts
        = (some c, ts.map (fun _ => NetCall.mainFetch)) := by
  intro ts
  induction ts with
  | nil => intro _; rfl
  | cons t ts ih =>
      intro h
      have hstep := requestAuthPath_fresh k hk c t lr (h t (List.mem_cons_self t ts))
      simp only [runAuthCalls, hstep, List.map_cons]
      rw [ih (fun u hu => h u (List.mem_cons_of_mem t hu))]
      rfl

theorem runAuthCalls_append (ak : Option String) (lr : Option GrvtCookie) :
    ∀ (ts1 : List Int) (cookie : Option GrvtCookie) (ts2 : List Int),
      runAuthCalls ak cookie lr (ts1 ++ ts2)
        = ((runAuthCalls ak (runAuthCalls ak cookie lr ts1).1 lr ts2).1,
           (runAuthCalls ak cookie lr ts1).2
             ++ (runAuthCalls ak (runAuthCalls ak cookie lr ts1).1 lr ts2).2) := by
  intro ts1
  induction ts1 with
  | nil =>
      intro cookie ts2
      simp [runAuthCalls]
  | cons t ts ih =>
      intro cookie ts2
      simp only [List.cons_append, runAuthCalls]
      simp only [List.append_eq]
      rw [ih]
      simp [List.append_assoc]

theorem countLogins_append (a b : List NetCall) :
    countLogins (a ++ b) = countLogins a + countLogins b := by
  simp [countLogins, List.filter_append]

theorem countLogins_mainFetches (ts : List Int) :
    countLogins (ts.map (fun _ => NetCall.mainFetch)) = 0 := by
  induction ts with
  | nil => rfl
  | cons t ts ih =>
      simp only [List.map_cons, countLogins, List.filter_cons]
      simp only [countLogins] at ih
      simp [ih]

/-! ## Claims -/

/-- C1: the claim states that an entry whose subscribe request was still
pending (unacknowledged) at disconnect time is never replayed on re-open.
The code contradicts this (and its own comment, which restricts replay to
previously connected subscriptions).  Concrete trace with `resubscribe`
enabled: one `subscribe` call is made and no response arrives, so at close
time the entry is unacknowledged (first conjunct) and its request id `1`
is pending.  The close-time blanket rejection rejects that request (second
conjunct), which settles the entry's promise: the `.finally` continuation
attached in `subscribe` runs on the microtask queue, before any later
socket event, and sets `promiseFinished := true`.  The `promiseFinished`
guard in `_handleOpen` therefore passes on re-open, and a second subscribe
frame is sent for the never-acknowledged entry (third conjunct). -/
theorem pending_entry_replayed_on_reopen :
    ((alookup (compositeKey "trade" "1234")
        ((subscribeStep (initMgr true) "trade" "1234" 0).1).subs).map
          (fun e => e.promiseFinished) = some false)
    ∧ (handleClose ((subscribeStep (initMgr true) "trade" "1234" 0).1)).pending = []
    ∧ (handleOpen (handleClose ((subscribeStep (initMgr true) "trade" "1234" 0).1))).sent
        = [mkSubscribeFrame 1 "trade" "1234", mkSubscribeFrame 2 "trade" "1234"] :=
  ⟨rfl, rfl, rfl⟩

/-- C2: calling `subscribe` twice with the same (stream, feed, listener)
before the first call completes sends exactly one wire frame, creates
exactly one entry in the index (holding the listener exactly once),
registers exactly one wrapper on the event target, and the second call
changes nothing and awaits the first call's in-flight request id. -/
theorem subscribe_dedup (st : MgrState) (stream feed : String) (l : Nat)
    (hkey : alookup (compositeKey stream feed) st.subs = none) :
    subscribeStep ((subscribeStep st stream feed l).1) stream feed l
        = subscribeStep st stream feed l
    ∧ (subscribeStep st stream feed l).1.sent
        = st.sent ++ [mkSubscribeFrame (st.requestId + 1) stream feed]
    ∧ (∀ p ∈ st.subs, p.1 ≠ compositeKey stream feed)
    ∧ (subscribeStep st stream feed l).1.subs
        = st.subs ++ [(compositeKey stream feed,
            { stream := stream, feed := feed, listeners := [(l, stream)]
              reqId := st.requestId + 1, promiseFinished := false
              failed := false, replayed := false })]
    ∧ (subscribeStep st stream feed l).1.eventListeners
        = st.eventListeners ++ [(stream, compositeKey stream feed, l)] := by
  have hfresh := subscribeStep_fresh st stream feed l hkey
  have hsubs : (subscribeStep st stream feed l).1.subs
      = st.subs ++ [(compositeKey stream feed,
          { stream := stream, feed := feed, listeners := [(l, stream)]
            reqId := st.requestId + 1, promiseFinished := false
            failed := false, replayed := false })] := by
    rw [hfresh]
  have hlook : alookup (compositeKey stream feed) (subscribeStep st stream feed l).1.subs
      = some { stream := stream, feed := feed, listeners := [(l, stream)]
               reqId := st.requestId + 1, promiseFinished := false
               failed := false, replayed := false } := by
    rw [hsubs, alookup_append_of_none _ _ hkey, alookup_cons]
    simp
  refine ⟨?_, by rw [hfresh], (alookup_none_iff _ _).mp hkey, hsubs, by rw [hfresh]⟩
  rw [subscribeStep_existing _ stream feed l _ hlook (by simp [listenersHas])]
  rw [hfresh]

/-- C2 witness: the hypothesis holds in the freshly constructed manager. -/
theorem subscribe_dedup_witness :
    alookup (compositeKey "ticker.s" "BTC_USDT_Perp@500") (initMgr true).subs = none
    ∧ subscribeStep ((subscribeStep (initMgr true) "ticker.s" "BTC_USDT_Perp@500" 5).1)
          "ticker.s" "BTC_USDT_Perp@500" 5
        = subscribeStep (initMgr true) "ticker.s" "BTC_USDT_Perp@500" 5 :=
  ⟨rfl, (subscribe_dedup (initMgr true) "ticker.s" "BTC_USDT_Perp@500" 5 rfl).1⟩

/-- C3: under the correlation-id invariant, each `_sendSubscribe` assigns
the successor of the counter — strictly greater than every pending id and
every id already sent in a frame, so ids strictly increase and are never
reused; each fresh `subscribe` registers its own fresh pending id; every
manager operation preserves the invariant; and processing any sequence of
response/error frames in any arrival order removes exactly the pending
requests whose own correlation ids occur in the sequence, never another's. -/
theorem correlation_id_claim (st : MgrState) (hinv : idInv st) :
    (∀ stream feed,
        (sendSubscribe st stream feed).2 = st.requestId + 1
        ∧ (∀ i ∈ st.pending, i < (sendSubscribe st stream feed).2)
        ∧ (∀ fr ∈ st.sent, fr.request_id < (sendSubscribe st stream feed).2))
    ∧ (∀ stream feed l, alookup (compositeKey stream feed) st.subs = none →
        (subscribeStep st stream feed l).1.pending = st.pending ++ [st.requestId + 1]
        ∧ (subscribeStep st stream feed l).2 = st.requestId + 1)
    ∧ (∀ stream feed l, idInv (subscribeStep st stream feed l).1)
    ∧ (∀ rid, idInv (handleResponse st rid))
    ∧ (∀ rid, idInv (handleError st rid))
    ∧ idInv (handleOpen st)
    ∧ idInv (handleClose st)
    ∧ (∀ es q, q ∈ (processEvents st es).pending ↔
        (q ∈ st.pending ∧ q ∉ es.map wireEventRid)) := by
  obtain ⟨hnd, hp, hs⟩ := hinv
  refine ⟨?_, ?_, ?_, ?_, ?_, ?_, ?_, ?_⟩
  · intro stream feed
    exact ⟨rfl, fun i hi => Nat.lt_succ_of_le (hp i hi),
      fun fr hfr => Nat.lt_succ_of_le (hs fr hfr)⟩
  · intro stream feed l hkey
    rw [subscribeStep_fresh st stream feed l hkey]
    exact ⟨rfl, rfl⟩
  · exact fun stream feed l => idInv_subscribeStep ⟨hnd, hp, hs⟩ stream feed l
  · exact fun rid => idInv_handleResponse ⟨hnd, hp, hs⟩ rid
  · exact fun rid => idInv_handleError ⟨hnd, hp, hs⟩ rid
  · exact idInv_handleOpen ⟨hnd, hp, hs⟩
  · exact idInv_handleClose ⟨hnd, hp, hs⟩
  · exact fun es q => pending_processEvents es st q

/-- C3 witness: the invariant holds in the freshly constructed manager. -/
theorem correlation_id_claim_witness :
    idInv (initMgr true)
    ∧ (∀ es q, q ∈ (processEvents (initMgr true) es).pending ↔
        (q ∈ (initMgr true).pending ∧ q ∉ es.map wireEventRid)) :=
  ⟨idInv_initMgr true,
   (correlation_id_claim (initMgr true) (idInv_initMgr true)).2.2.2.2.2.2.2⟩

/-- C4 counterexample: the object with `code` equal to the number 600 and
`message` equal to the number 42 is not a pong and does not have a string
`message` field, yet the router classifies it as an Error (the source
checks only the presence of `message`, not its type), so "exactly when
... numeric `code` field and a string `message` field" fails on the code. -/
theorem error_classification_counterexample :
    isPongMessage (JVal.jobj [("code", JVal.jnum 600), ("message", JVal.jnum 42)]) = false
    ∧ routeMessage (JVal.jobj [("code", JVal.jnum 600), ("message", JVal.jnum 42)])
        = RouterEvent.errorEvt (JVal.jobj [("code", JVal.jnum 600), ("message", JVal.jnum 42)])
    ∧ errorShapePerSpec (JVal.jobj [("code", JVal.jnum 600), ("message", JVal.jnum 42)])
        = false :=
  ⟨rfl, rfl, rfl⟩

/-- C4 (amended): an inbound frame that is not a pong is classified as an
Error exactly when it is an object containing a numeric `code` field and a
`message` field of any type (the type of `message` is not checked); it is
then dispatched as an error event carrying the full error object and not
as a subscription response or data message. -/
theorem error_classification_amended (m : JVal) (hp : isPongMessage m = false) :
    routeMessage m = RouterEvent.errorEvt m ↔ isErrorMessage m = true := by
  unfold routeMessage
  rw [hp]
  simp only [Bool.false_eq_true, if_false]
  by_cases he : isErrorMessage m = true
  · simp [he]
  · rw [if_neg he]
    constructor
    · intro hcontra
      split at hcontra
      · simp_all
      · split at hcontra <;> simp_all
    · intro hcontra
      exact absurd hcontra he

/-- C4 witness: a well-formed error frame is not a pong, and for it the
amended classification law holds. -/
theorem error_classification_witness :
    isPongMessage (JVal.jobj [("code", JVal.jnum 600), ("message", JVal.jstr "bad")]) = false
    ∧ (routeMessage (JVal.jobj [("code", JVal.jnum 600), ("message", JVal.jstr "bad")])
          = RouterEvent.errorEvt (JVal.jobj [("code", JVal.jnum 600), ("message", JVal.jstr "bad")])
        ↔ isErrorMessage (JVal.jobj [("code", JVal.jnum 600), ("message", JVal.jstr "bad")]) = true) :=
  ⟨rfl, error_classification_amended _ rfl⟩

/-- C5 counterexample: the separator `:` may occur in the joined strings,
so two distinct (stream, feed) pairs can collide on the same composite
key. -/
theorem compositeKey_collision :
    compositeKey "a:b" "c" = compositeKey "a" "b:c"
    ∧ ("a:b", "c") ≠ (("a", "b:c") : String × String) := by
  refine ⟨rfl, ?_⟩
  intro h
  simp at h

/-- C5 (amended): the composite key is the colon-joined concatenation of
stream and feed; the separator is not guaranteed absent from the parts,
but whenever the stream names contain no colon (as all GRVT stream names
do) the key is injective: equal keys force equal streams and equal feeds. -/
theorem compositeKey_inj_of_no_colon (s1 f1 s2 f2 : String)
    (h1 : ':' ∉ s1.data) (h2 : ':' ∉ s2.data)
    (heq : compositeKey s1 f1 = compositeKey s2 f2) :
    s1 = s2 ∧ f1 = f2 := by
  have hd := congrArg String.data heq
  rw [data_compositeKey, data_compositeKey] at hd
  obtain ⟨hs, hf⟩ := sep_split_unique s1.data s2.data f1.data f2.data h1 h2 hd
  exact ⟨String.ext hs, String.ext hf⟩

/-- C5 witness: the hypotheses hold for a real stream name. -/
theorem compositeKey_inj_witness :
    (':' ∉ ("ticker.s" : String).data)
    ∧ (("ticker.s" : String) = "ticker.s" ∧ ("BTC_USDT_Perp@500" : String) = "BTC_USDT_Perp@500") :=
  ⟨by decide,
   compositeKey_inj_of_no_colon "ticker.s" "BTC_USDT_Perp@500" "ticker.s" "BTC_USDT_Perp@500"
     (by decide) (by decide) rfl⟩

/-- C6 counterexample: with `requiresAuth` set and no API key configured,
`request()` does reject before any network call (the call log is empty),
but the surfaced rejection is an `HttpRequestError` — the transport-error
class — because the plain `Error` thrown by `_shouldRefreshCookie` is
wrapped by `request()`'s catch block; it is therefore not an error value
distinguishable from transport failures by its class, contradicting the
claim. -/
theorem auth_missing_key_counterexample :
    requestAuthPath none none 0 none true
      = (.error (.httpRequestError none (some (.plainError
            "Attempting to use authenticated API without API key set"))), none, [])
    ∧ HttpError.isTransportError
        (.httpRequestError none (some (.plainError
            "Attempting to use authenticated API without API key set"))) = true :=
  ⟨rfl, rfl⟩

/-- C6 (amended): if a request with `requiresAuth` set is made while no
API key is configured, `request()` rejects before any I/O with zero
network calls made; the missing-API-key check throws a plain `Error`,
which the request boundary wraps into an `HttpRequestError` (a
transport-error class) carrying the original error as its cause — so the
failure is distinguishable from other transport failures only via its
cause, not by error class. -/
theorem auth_missing_key_amended (apiKey : Option String) (cookie : Option GrvtCookie)
    (now : Int) (loginResult : Option GrvtCookie) (h : apiKey.getD "" = "") :
    requestAuthPath apiKey cookie now loginResult true
      = (.error (.httpRequestError none (some (.plainError
            "Attempting to use authenticated API without API key set"))), cookie, []) := by
  simp [requestAuthPath, refreshCookie, shouldRefreshCookie, h, HttpError.isTransportError]

/-- C6 witness: the hypothesis holds with no API key configured. -/
theorem auth_missing_key_witness :
    ((none : Option String).getD "" = "")
    ∧ requestAuthPath none (some ⟨"g", 99999⟩) 17 none true
        = (.error (.httpRequestError none (some (.plainError
              "Attempting to use authenticated API without API key set"))), some ⟨"g", 99999⟩, []) :=
  ⟨rfl, auth_missing_key_amended none (some ⟨"g", 99999⟩) 17 none rfl⟩

theorem runAuthCalls_fresh_then_stale (k : String) (hk : ¬ k = "") (c : GrvtCookie)
    (tLate : Int) (hstale : c.expires - tLate ≤ 5000) :
    ∀ ts : List Int, (∀ t ∈ ts, c.expires - t > 5000) →
      runAuthCalls (some k) (some c) (some c) (ts ++ [tLate])
        = (some c, ts.map (fun _ => NetCall.mainFetch)
            ++ [NetCall.login, NetCall.mainFetch]) := by
  intro ts
  induction ts with
  | nil =>
      intro _
      simp only [List.nil_append, runAuthCalls,
        requestAuthPath_login_stale k hk c tLate c hstale]
      rfl
  | cons t ts ih =>
      intro h
      simp only [List.cons_append, runAuthCalls,
        requestAuthPath_fresh k hk c t (some c) (h t (List.mem_cons_self t ts))]
      simp only [List.append_eq]
      rw [ih (fun u hu => h u (List.mem_cons_of_mem t hu))]
      rfl

/-- C7: a run of authenticated calls starting with no cookie held, whose
later clock readings all see the cookie's expiry more than the 5-second
buffer away, performs exactly one login round-trip in total; appending one
further call whose clock reading falls within the buffer performs exactly
one additional login round-trip. -/
theorem cookie_refresh_idempotent (k : String) (c : GrvtCookie) (t0 tLate : Int)
    (ts : List Int) (hk : ¬ k = "")
    (hfresh : ∀ t ∈ ts, c.expires - t > 5000)
    (hstale : c.expires - tLate ≤ 5000) :
    countLogins (runAuthCalls (some k) none (some c) (t0 :: ts)).2 = 1
    ∧ countLogins (runAuthCalls (some k) none (some c) ((t0 :: ts) ++ [tLate])).2 = 2 := by
  constructor
  · have hrun1 : runAuthCalls (some k) none (some c) (t0 :: ts)
        = (some c, NetCall.login :: NetCall.mainFetch
            :: ts.map (fun _ => NetCall.mainFetch)) := by
      simp only [runAuthCalls, requestAuthPath_login_none k hk t0 c,
        runAuthCalls_fresh_cookie k hk c (some c) ts hfresh]
      rfl
    rw [hrun1]
    rw [show NetCall.login :: NetCall.mainFetch :: ts.map (fun _ => NetCall.mainFetch)
        = [NetCall.login, NetCall.mainFetch] ++ ts.map (fun _ => NetCall.mainFetch) from rfl]
    rw [countLogins_append, countLogins_mainFetches]
    rfl
  · rw [show (t0 :: ts) ++ [tLate] = t0 :: (ts ++ [tLate]) from rfl]
    have hrun3 : runAuthCalls (some k) none (some c) (t0 :: (ts ++ [tLate]))
        = (some c, NetCall.login :: NetCall.mainFetch ::
            (ts.map (fun _ => NetCall.mainFetch)
              ++ [NetCall.login, NetCall.mainFetch])) := by
      simp only [runAuthCalls, requestAuthPath_login_none k hk t0 c,
        runAuthCalls_fresh_then_stale k hk c tLate hstale ts hfresh]
      rfl
    rw [hrun3]
    rw [show NetCall.login :: NetCall.mainFetch ::
          (ts.map (fun _ => NetCall.mainFetch) ++ [NetCall.login, NetCall.mainFetch])
        = [NetCall.login, NetCall.mainFetch]
            ++ (ts.map (fun _ => NetCall.mainFetch) ++ [NetCall.login, NetCall.mainFetch])
        from rfl]
    rw [countLogins_append, countLogins_append, countLogins_mainFetches]
    rfl

/-- C7 witness: a concrete run with cookie expiry 100000 ms, calls at
0, 10 and 20 ms (all more than 5 s before expiry) and a final call at
96000 ms (within the 5-second buffer). -/
theorem cookie_refresh_idempotent_witness :
    (¬ ("key" : String) = "")
    ∧ (∀ t ∈ ([10, 20] : List Int), (⟨"g", 100000⟩ : GrvtCookie).expires - t > 5000)
    ∧ ((⟨"g", 100000⟩ : GrvtCookie).expires - 96000 ≤ 5000)
    ∧ (countLogins (runAuthCalls (some "key") none (some ⟨"g", 100000⟩) ([0, 10, 20])).2 = 1
        ∧ countLogins (runAuthCalls (some "key") none
            (some ⟨"g", 100000⟩) (([0, 10, 20]) ++ [96000])).2 = 2) :=
  ⟨by decide, by decide, by decide,
   cookie_refresh_idempotent "key" ⟨"g", 100000⟩ 0 96000 [10, 20]
     (by decide) (by decide) (by decide)⟩

/-- C8: the `timeout` stored on the transport comes from the option with
default 10000, but the subscription manager is built without it: two
transports differing only in the `timeout` option have identical managers
and identical subscribe behaviour, and every subscribe request schedules
the fixed 10000 ms timeout regardless. -/
theorem subscribe_timeout_fixed (o : WebSocketTransportOptions) (t1 t2 : Option Nat) :
    (mkWebSocketTransport { o with timeout := t1 }).mgr
      = (mkWebSocketTransport { o with timeout := t2 }).mgr
    ∧ (mkWebSocketTransport o).timeout = o.timeout.getD 10000
    ∧ (∀ st stream feed,
        ((sendSubscribe st stream feed).1).scheduledTimeouts
          = st.scheduledTimeouts ++ [((sendSubscribe st stream feed).2, 10000)])
    ∧ (∀ stream feed l,
        ((mkWebSocketTransport { o with timeout := t1 }).subscribeCall stream feed l).1.mgr
          = ((mkWebSocketTransport { o with timeout := t2 }).subscribeCall stream feed l).1.mgr) :=
  ⟨rfl, rfl, fun _ _ _ => rfl, fun _ _ _ => rfl⟩

/-- C9 counterexample: for the doubly prefixed stream name `v1.v1.u` (which
does carry the `v1.` prefix) the outbound frame differs from the one for
its unprefixed remainder `v1.u`, and a listener registered under a
prefixed name `v1.ticker.s` IS invoked by the data frame whose stream
field is `v1.v1.ticker.s` (dispatched under `v1.ticker.s` after
prefix-stripping), so it is not true that such a listener is never invoked
by any data frame. -/
theorem prefixed_stream_counterexample :
    startsWithV1 "v1.v1.u" = true
    ∧ mkSubscribeFrame 1 "v1.v1.u" "f" ≠ mkSubscribeFrame 1 "v1.u" "f"
    ∧ invokedListeners ((subscribeStep (initMgr true) "v1.ticker.s" "BTC" 7).1)
        "v1.v1.ticker.s" = [7] := by
  refine ⟨rfl, ?_, rfl⟩
  intro h
  simp [mkSubscribeFrame, normalizeStreamName, startsWithV1, stripV1Data] at h

/-- C9 (amended): if `subscribe` is called with a stream name `v1.` ++ t
where the remainder t does not itself start with `v1.`, the outbound
subscribe frame is identical to the one sent for t (and normalization is
idempotent on every stream name); the listener is registered on the event
target under the prefixed name, while a data frame carrying this
subscription's own wire-level stream name is dispatched under the
prefix-stripped name, which differs from the registered name — so the
listener is never invoked by a data frame of its own subscription. -/
theorem prefixed_stream_amended (t : String) (ht : startsWithV1 t = false) :
    (∀ rid feed, mkSubscribeFrame rid ("v1." ++ t) feed = mkSubscribeFrame rid t feed)
    ∧ (∀ s, normalizeStreamName (normalizeStreamName s) = normalizeStreamName s)
    ∧ stripV1 (normalizeStreamName ("v1." ++ t)) = t
    ∧ ("v1." ++ t) ≠ t
    ∧ (∀ (b : Bool) (feed : String) (l : Nat),
        invokedListeners ((subscribeStep (initMgr b) ("v1." ++ t) feed l).1)
          (normalizeStreamName ("v1." ++ t)) = []) := by
  have hnorm : normalizeStreamName ("v1." ++ t) = "v1." ++ t := by
    simp [normalizeStreamName, startsWithV1_v1_append]
  refine ⟨?_, fun s => normalizeStreamName_idem s, ?_, v1_append_ne t, ?_⟩
  · intro rid feed
    simp [mkSubscribeFrame, normalizeStreamName, startsWithV1_v1_append, ht]
  · rw [hnorm, stripV1_v1_append]
  · intro b feed l
    rw [subscribeStep_fresh (initMgr b) ("v1." ++ t) feed l rfl]
    have hne2 : (("v1." ++ t : String) == t) = false := by
      rw [beq_eq_false_iff_ne]
      exact v1_append_ne t
    simp [invokedListeners, hnorm, stripV1_v1_append, initMgr, hne2]

/-- C9 witness: the hypothesis holds for the real stream name `ticker.s`. -/
theorem prefixed_stream_witness :
    startsWithV1 "ticker.s" = false
    ∧ stripV1 (normalizeStreamName ("v1." ++ "ticker.s")) = "ticker.s" :=
  ⟨rfl, (prefixed_stream_amended "ticker.s" rfl).2.2.1⟩

theorem fireTimeout_eq_handleError (st : MgrState) (rid : Nat) :
    fireTimeout st rid = handleError st rid := rfl

theorem bookkeepingIntact_mapped (st : MgrState) (stream feed : String) (l : Nat)
    (hkey : alookup (compositeKey stream feed) st.subs = none)
    (st2 : MgrState) (g : String × SubEntry → String × SubEntry)
    (hsubs : st2.subs = ((subscribeStep st stream feed l).1.subs).map g)
    (hev : st2.eventListeners = (subscribeStep st stream feed l).1.eventListeners)
    (hg : ∀ p, (g p).1 = p.1)
    (hgl : ∀ p, ((g p).2).listeners = p.2.listeners) :
    bookkeepingIntact st2 stream feed l := by
  have hfresh := subscribeStep_fresh st stream feed l hkey
  have hevm : (stream, compositeKey stream feed, l) ∈ st2.eventListeners := by
    rw [hev, hfresh]
    simp
  refine ⟨?_, hevm, fun w hw => mem_invokedListeners hevm hw⟩
  rw [hsubs, hfresh]
  refine ⟨(g (compositeKey stream feed,
      { stream := stream, feed := feed, listeners := [(l, stream)]
        reqId := st.requestId + 1, promiseFinished := false
        failed := false, replayed := false })).2, ?_, ?_⟩
  · exact alookup_map_append_single _ g hg hkey _
  · rw [hgl]
    simp

/-- C10 counterexample: when the rejection cause is a connection close
with `resubscribe` disabled, the bookkeeping does NOT remain: the request
is in flight at close time (first conjunct) and the close both rejects it
(blanket rejection empties the pending table) and wipes the entry and the
listener registration, so "the SubscriptionEntry remains in the index" and
"the caller's listener stays registered" fail for that rejection cause. -/
theorem subscribe_failure_close_cleanup_counterexample :
    (1 ∈ (subscribeStep (initMgr false) "trade" "1234" 0).1.pending)
    ∧ (handleClose ((subscribeStep (initMgr false) "trade" "1234" 0).1)).pending = []
    ∧ alookup (compositeKey "trade" "1234")
        (handleClose ((subscribeStep (initMgr false) "trade" "1234" 0).1)).subs = none
    ∧ (handleClose ((subscribeStep (initMgr false) "trade" "1234" 0).1)).eventListeners
        = [] := by
  refine ⟨?_, rfl, rfl, rfl⟩
  simp [subscribeStep, alookup, sendSubscribe, initMgr, listenersHas, updateEntry]

/-- C10 (amended): if the subscribe-request promise for a newly created
SubscriptionEntry rejects, `subscribe()` rejects and the caller receives
no handle; for a server-reported error or timeout rejection — and for a
connection-close rejection when `resubscribe` is enabled — nothing is
rolled back: the entry remains in the index, the caller's listener stays
registered and is still invoked by data frames dispatched under its stream
name.  (A connection close with `resubscribe` disabled additionally clears
the entry and all listeners as part of close-time cleanup.) -/
theorem subscribe_failure_no_rollback (st : MgrState) (stream feed : String) (l : Nat)
    (hkey : alookup (compositeKey stream feed) st.subs = none) :
    ((subscribeStep st stream feed l).2 ∈ (subscribeStep st stream feed l).1.pending)
    ∧ bookkeepingIntact
        (handleError (subscribeStep st stream feed l).1 (subscribeStep st stream feed l).2)
        stream feed l
    ∧ bookkeepingIntact
        (fireTimeout (subscribeStep st stream feed l).1 (subscribeStep st stream feed l).2)
        stream feed l
    ∧ (st.resubscribe = true →
        bookkeepingIntact (handleClose (subscribeStep st stream feed l).1) stream feed l)
    ∧ (∀ e, subscribeReturn (.error e) (compositeKey stream feed) l
        = SubscribeResult.failedCall e) := by
  have hfresh := subscribeStep_fresh st stream feed l hkey
  have hpend2 : (subscribeStep st stream feed l).2
      ∈ (subscribeStep st stream feed l).1.pending := by
    rw [hfresh]
    simp
  have hB : bookkeepingIntact
      (handleError (subscribeStep st stream feed l).1 (subscribeStep st stream feed l).2)
      stream feed l := by
    refine bookkeepingIntact_mapped st stream feed l hkey _
      (fun p => if p.2.reqId = (subscribeStep st stream feed l).2 then
          (p.1, { p.2 with
                    promiseFinished := true
                    failed := p.2.failed || (true && p.2.replayed) })
        else p) ?_ ?_ ?_ ?_
    · unfold handleError
      rw [if_pos hpend2]
      rfl
    · unfold handleError
      rw [if_pos hpend2]
      rfl
    · intro p
      by_cases hc : p.2.reqId = (subscribeStep st stream feed l).2 <;> simp [hc]
    · intro p
      by_cases hc : p.2.reqId = (subscribeStep st stream feed l).2 <;> simp [hc]
  refine ⟨hpend2, hB, ?_, ?_, fun e => rfl⟩
  · rw [fireTimeout_eq_handleError]
    exact hB
  · intro hres
    have hres2 : (subscribeStep st stream feed l).1.resubscribe = true := by
      rw [hfresh]
      exact hres
    refine bookkeepingIntact_mapped st stream feed l hkey _
      (fun p => if p.2.reqId ∈ (subscribeStep st stream feed l).1.pending then
          (p.1, { p.2 with
                    promiseFinished := true
                    failed := p.2.failed || p.2.replayed })
        else p) ?_ ?_ ?_ ?_
    · unfold handleClose
      rw [if_pos hres2]
    · unfold handleClose
      rw [if_pos hres2]
    · intro p
      by_cases hc : p.2.reqId ∈ (subscribeStep st stream feed l).1.pending <;> simp [hc]
    · intro p
      by_cases hc : p.2.reqId ∈ (subscribeStep st stream feed l).1.pending <;> simp [hc]

/-- C10 witness: the hypothesis holds in the freshly constructed manager. -/
theorem subscribe_failure_witness :
    alookup (compositeKey "ticker.s" "BTC_USDT_Perp@500") (initMgr true).subs = none
    ∧ ((subscribeStep (initMgr true) "ticker.s" "BTC_USDT_Perp@500" 3).2
        ∈ (subscribeStep (initMgr true) "ticker.s" "BTC_USDT_Perp@500" 3).1.pending) :=
  ⟨rfl, (subscribe_failure_no_rollback (initMgr true) "ticker.s" "BTC_USDT_Perp@500" 3 rfl).1⟩

end Grvt
